import Mathlib

/-!
Verification of the orchestration core of the pension-AI repository
(`server/app/workflow.py`, `server/app/agents/summarizer_agent.py`,
`server/app/agents/visualizer_agent.py`).

The Python code is shallowly embedded: Python runtime values that flow
through the graph state are modelled by `PyVal`, LangChain messages by
`Msg`, and the graph nodes (`supervisor_node`, `agent_node`,
`summarizer_node`, `visualizer_node`) become Lean functions over an
explicit `AgentState`.  External collaborators (the routing LLM, the
specialist workers, the narrative LLM, the chart rasterizer) are
parameters of the functions that call them, exactly at the call sites
where the Python code invokes them.
-/

namespace PensionAI

/-- A Python runtime value, as far as the orchestration core inspects one:
`None`, booleans, ints, floats (modelled as rationals), strings, dicts
(insertion-ordered association lists) and lists. -/
inductive PyVal where
  | none
  | pybool (b : Bool)
  | int (n : Int)
  | float (q : Rat)
  | str (s : String)
  | pdict (entries : List (String × PyVal))
  | plist (xs : List PyVal)

/-- Python truthiness (`bool(x)`): `None`, `False`, `0`, `0.0`, `""`,
`{}` and `[]` are falsy, everything else truthy. -/
def PyVal.truthy : PyVal → Bool
  | .none => false
  | .pybool b => b
  | .int n => n != 0
  | .float q => q != 0
  | .str s => s != ""
  | .pdict es => !es.isEmpty
  | .plist xs => !xs.isEmpty

/-- `d.get(k)` on an insertion-ordered dict: first binding of `k`. -/
def dictGet (es : List (String × PyVal)) (k : String) : Option PyVal :=
  (es.find? (fun e => e.1 == k)).map Prod.snd

/-- The keys of a dict. -/
def dictKeys (es : List (String × PyVal)) : List String :=
  es.map Prod.fst

/-- `str(x)` — the pieces of it the core ever embeds into messages.  The
rendering of nested containers is kept simple (the orchestration logic
never branches on the rendered text, it only embeds it). -/
def pyStr : PyVal → String
  | .none => "None"
  | .pybool true => "True"
  | .pybool false => "False"
  | .int n => toString n
  | .float q => toString q
  | .str s => s
  | .pdict _ => "<dict>"
  | .plist _ => "<list>"

/-- ASCII lower-casing of a character (`str.lower()` on the alphabets the
routing vocabulary uses). -/
def lowerChar (c : Char) : Char :=
  if c = 'A' then 'a' else if c = 'B' then 'b' else if c = 'C' then 'c'
  else if c = 'D' then 'd' else if c = 'E' then 'e' else if c = 'F' then 'f'
  else if c = 'G' then 'g' else if c = 'H' then 'h' else if c = 'I' then 'i'
  else if c = 'J' then 'j' else if c = 'K' then 'k' else if c = 'L' then 'l'
  else if c = 'M' then 'm' else if c = 'N' then 'n' else if c = 'O' then 'o'
  else if c = 'P' then 'p' else if c = 'Q' then 'q' else if c = 'R' then 'r'
  else if c = 'S' then 's' else if c = 'T' then 't' else if c = 'U' then 'u'
  else if c = 'V' then 'v' else if c = 'W' then 'w' else if c = 'X' then 'x'
  else if c = 'Y' then 'y' else if c = 'Z' then 'z' else c

/-- `s.lower()`. -/
def strLower (s : String) : String :=
  ⟨s.data.map lowerChar⟩

/-- `s[:n]` (Python slicing by characters). -/
def strTake (s : String) (n : Nat) : String :=
  ⟨s.data.take n⟩

/-- Does `pat` occur as a contiguous run inside `s`? -/
def listContainsSub (s pat : List Char) : Bool :=
  match s with
  | [] => pat.isEmpty
  | _ :: rest => pat.isPrefixOf s || listContainsSub rest pat

/-- `pat in s` for Python strings. -/
def strContains (s pat : String) : Bool :=
  listContainsSub s.data pat.data

/-- A LangChain-style message as the workflow code pattern-matches on it:
`HumanMessage`, `AIMessage`, a role-tagged dict, or a role-tagged tuple. -/
inductive Msg where
  | human (content : String)
  | ai (content : String)
  | dictMsg (role : String) (content : String)
  | tupleMsg (role : String) (content : String)
deriving Repr, DecidableEq

/-- An `AgentAction` carried in `intermediate_steps`: the tool name and
its input (`getattr(action, "tool", None)`, `getattr(action, "tool_input", None)`). -/
structure AgentAction where
  tool : String
  tool_input : PyVal

/-- One ledger entry: an `(AgentAction, observation)` pair. -/
abbrev Step := AgentAction × PyVal

/-- The `final_response` dict assembled by the summarizer. -/
structure FinalResponse where
  summary : String
  charts : List (String × PyVal)
  plotly_figs : List (String × PyVal)
  chart_images : List (String × String)

/-- The LangGraph `AgentState` (`workflow.py`, `class AgentState`). -/
structure AgentState where
  messages : List Msg
  next : String
  intermediate_steps : List Step
  turns : Nat
  charts : List (String × PyVal)
  chart_images : List (String × String)
  plotly_figs : List (String × PyVal)
  final_response : Option FinalResponse

/-- Does a message match the supervisor's user-message scan
(`isinstance(msg, HumanMessage)`, or a dict/tuple whose role lowers to
`"user"`/`"human"`)? -/
def isUserMsg : Msg → Bool
  | .human _ => true
  | .ai _ => false
  | .dictMsg r _ => strLower r == "user" || strLower r == "human"
  | .tupleMsg r _ => strLower r == "user" || strLower r == "human"

/-- The content of a message, as the scans read it. -/
def msgContent : Msg → String
  | .human c => c
  | .ai c => c
  | .dictMsg _ c => c
  | .tupleMsg _ c => c

/-- `supervisor_node`'s forward scan for `original_query` (workflow.py
lines 65–75): walk `messages` front to back, `break` on the first
user-authored entry, lower-case its content; default `""`. -/
def firstUserQuery : List Msg → String
  | [] => ""
  | m :: rest => if isUserMsg m then strLower (msgContent m) else firstUserQuery rest

/-- `has_projection`/`has_risk`/`has_fraud` (workflow.py lines 78–92):
`any(...)` over the steps whose action's `tool` equals `name`, testing
truthiness of the observation `step[1]`. -/
def hasToolData (steps : List Step) (name : String) : Bool :=
  steps.any (fun st => st.1.tool == name && st.2.truthy)

/-- `should_visualize` (workflow.py lines 95–106). -/
def shouldVisualize (q : String) (steps : List Step) : Bool :=
  strContains q "chart" ||
  strContains q "graph" ||
  strContains q "visual" ||
  strContains q "visualize" ||
  strContains q "show me" ||
  strContains q "display" ||
  strContains q "plot" ||
  (hasToolData steps "project_pension" &&
    (strContains q "growth" || strContains q "time" || strContains q "progress" ||
     strContains q "goal" || strContains q "retirement" || strContains q "pension" ||
     strContains q "projection")) ||
  (hasToolData steps "analyze_risk_profile" && strContains q "risk") ||
  (hasToolData steps "detect_fraud" && strContains q "fraud")

/-- Is an optional string falsy in Python (`not next_value`)? -/
def optStrFalsy : Option String → Bool
  | Option.none => true
  | some s => s == ""

/-- `supervisor_node` (workflow.py lines 47–131).  The external routing
collaborator (`supervisor_chain_runnable.invoke` together with the
`next`/`output`/`text` extraction) is the parameter `classify`; a `none`
or `some ""` result models a falsy `next_value`.  Returns the state
update `(next, turns)`. -/
def supervisor_node (classify : List Msg → Option String) (state : AgentState) :
    String × Nat :=
  let has_specialist_data := !state.intermediate_steps.isEmpty
  let has_visualization_data :=
    !state.charts.isEmpty || !state.plotly_figs.isEmpty || !state.chart_images.isEmpty
  if has_visualization_data then
    ("summarizer", state.turns)
  else if has_specialist_data then
    let original_query := firstUserQuery state.messages
    if shouldVisualize original_query state.intermediate_steps then
      ("visualizer", state.turns)
    else
      ("summarizer", state.turns)
  else
    let next_value := classify state.messages
    let new_turns := state.turns + 1
    let next_value := if new_turns ≥ 5 then some "FINISH" else next_value
    let next_value := if optStrFalsy next_value then some "FINISH" else next_value
    (next_value.getD "FINISH", new_turns)

/-- A worker's return value, as `agent_node` dispatches on it
(workflow.py lines 163–181): a plain string, a dict (its
`output or content or text` chain collapsed into `final_text`, plus its
`intermediate_steps` list, empty when the key is missing/falsy), or any
other value (stringified defensively). -/
inductive WorkerResult where
  | str (s : String)
  | wdict (final_text : Option String) (steps : List Step)
  | other (v : PyVal)

/-- The dict `agent_node` returns: `messages` always, `intermediate_steps`
only when the new list is non-empty (`if new_intermediate_steps:`). -/
structure AgentUpdate where
  messages : List Msg
  intermediate_steps : Option (List Step)

/-- The diagnostic appended when no user message is found
(workflow.py line 150). -/
def noUserDiagnostic : String := "⚠️ No user message found to process."

/-- `sep.join(xs)`. -/
def joinSep (sep : String) : List String → String
  | [] => ""
  | [x] => x
  | x :: y :: rest => x ++ sep ++ joinSep sep (y :: rest)

/-- One line of the tools-executed summary (workflow.py lines 173–175):
`f"-tool_name-(-tool_input-) -> -str(observation)[:200]-"`, where
`tool_name` falls back to `"tool"` and `tool_input` to `None` when falsy
(the `or` chains over the absent `tool_name`/`input` attributes). -/
def toolSummaryLine (st : Step) : String :=
  let tool_name := if st.1.tool == "" then "tool" else st.1.tool
  let tool_input := if st.1.tool_input.truthy then pyStr st.1.tool_input else "None"
  tool_name ++ "(" ++ tool_input ++ ") -> " ++ strTake (pyStr st.2) 200

/-- The backward scan of `agent_node` (workflow.py lines 136–147): walk
`reversed(messages)`, `break` at the first user-authored entry
(HumanMessage, user/human tuple, or user/human dict), returning its
content; `none` when no entry matches. -/
def lastUserText (msgs : List Msg) : Option String :=
  go msgs.reverse
where
  go : List Msg → Option String
    | [] => Option.none
    | m :: rest => if isUserMsg m then some (msgContent m) else go rest

/-- Normalisation of a worker result into state updates (workflow.py
lines 156–191, everything after the worker call). -/
def normalizeWorkerResult (state : AgentState) (result : WorkerResult) : AgentUpdate :=
  match result with
  | .str s =>
      { messages := state.messages ++ (if s == "" then [] else [Msg.ai s]),
        intermediate_steps :=
          if state.intermediate_steps.isEmpty then Option.none
          else some state.intermediate_steps }
  | .wdict final_text steps =>
      let tools_summary : Option String :=
        if steps.isEmpty then Option.none
        else some (joinSep "\n" (steps.map toolSummaryLine))
      let new_intermediate_steps :=
        if steps.isEmpty then state.intermediate_steps
        else state.intermediate_steps ++ steps
      let msgs1 :=
        if optStrFalsy final_text then [] else [Msg.ai (final_text.getD "")]
      let msgs2 :=
        match tools_summary with
        | Option.none => []
        | some ts => [Msg.ai ("[Tools executed]\n" ++ ts)]
      { messages := state.messages ++ msgs1 ++ msgs2,
        intermediate_steps :=
          if new_intermediate_steps.isEmpty then Option.none
          else some new_intermediate_steps }
  | .other v =>
      let s := pyStr v
      { messages := state.messages ++ (if s == "" then [] else [Msg.ai s]),
        intermediate_steps :=
          if state.intermediate_steps.isEmpty then Option.none
          else some state.intermediate_steps }

/-- `agent_node` (workflow.py lines 134–191).  The specialist worker
(`agent_runnable`) is the parameter `worker`, invoked on the located
user text. -/
def agent_node (worker : String → WorkerResult) (state : AgentState) : AgentUpdate :=
  let t := lastUserText state.messages
  if optStrFalsy t then
    { messages := state.messages ++ [Msg.ai noUserDiagnostic],
      intermediate_steps := Option.none }
  else
    normalizeWorkerResult state (worker (t.getD ""))

/-- Is `c` a regex word character (`\w` = `[A-Za-z0-9_]`)? -/
def isWordChar (c : Char) : Bool :=
  (65 ≤ c.toNat && c.toNat ≤ 90) || (97 ≤ c.toNat && c.toNat ≤ 122) ||
  (48 ≤ c.toNat && c.toNat ≤ 57) || c.toNat == 95

/-- Auxiliary scan for `\b-word-\b` search: `prev` is the character just
before the current position (`none` at the start of the text).  A match
needs `word` as a contiguous run whose neighbours on both sides are
absent or non-word characters. -/
def wbMatchAux (word : List Char) (prev : Option Char) : List Char → Bool
  | [] => false
  | c :: rest =>
      (word.isPrefixOf (c :: rest) &&
        (match prev with | Option.none => true | some p => !isWordChar p) &&
        (match (c :: rest).drop word.length with
         | [] => true
         | d :: _ => !isWordChar d)) ||
      wbMatchAux word (some c) rest

/-- `re.search(r"\b(-word-)\b", text)` for a single alternative whose
first and last characters are word characters (true of the whole
guardrail vocabulary). -/
def wbContains (text word : String) : Bool :=
  wbMatchAux word.data Option.none text.data

/-- The `religious` patterns (summarizer_agent.py lines 22–26), each
regex `\b(a|b|...)\b` as its list of alternatives. -/
def religiousPatterns : List (List String) :=
  [["pray", "prayer", "god", "jesus", "allah", "buddha", "hindu", "islam",
    "christian", "jewish", "religious", "spiritual", "faith", "blessing",
    "divine", "heaven", "hell"],
   ["amen", "hallelujah", "om", "namaste", "shalom", "salaam"],
   ["church", "mosque", "temple", "synagogue", "worship", "meditation"]]

/-- The `political` patterns (summarizer_agent.py lines 27–31). -/
def politicalPatterns : List (List String) :=
  [["democrat", "republican", "liberal", "conservative", "left", "right",
    "wing", "party", "election", "vote", "campaign", "politician", "senator",
    "congress", "president"],
   ["government", "administration", "policy", "legislation", "bill", "law",
    "regulation"],
   ["progressive", "moderate", "radical", "extremist", "activist", "protest",
    "rally"]]

/-- The `investment_strategy` patterns (summarizer_agent.py lines 32–38). -/
def investmentStrategyPatterns : List (List String) :=
  [["buy", "sell", "hold", "stock", "shares", "equity", "market", "timing",
    "entry", "exit", "position", "portfolio", "allocation"],
   ["day trading", "swing trading", "momentum", "value", "growth", "dividend",
    "yield"],
   ["cryptocurrency", "bitcoin", "ethereum", "blockchain", "ico", "token",
    "coin"],
   ["real estate", "property", "mortgage", "loan", "credit", "debt",
    "leverage"],
   ["hedge fund", "private equity", "venture capital", "startup", "ipo",
    "merger", "acquisition"]]

/-- `blocked_patterns` in dict insertion order (summarizer_agent.py
lines 21–39). -/
def blockedPatterns : List (String × List (List String)) :=
  [("religious", religiousPatterns),
   ("political", politicalPatterns),
   ("investment_strategy", investmentStrategyPatterns)]

/-- Does any pattern of a category match `text.lower()`?  (The inner
`break` in the Python loop only stops scanning further patterns of the
same category, so a category is reported exactly when some pattern of it
matches.) -/
def categoryMatches (text : String) (cat : String × List (List String)) : Bool :=
  cat.2.any (fun pat => pat.any (fun w => wbContains (strLower text) w))

/-- `found_issues` (summarizer_agent.py lines 42–47): the names of the
matching categories, in dict order. -/
def foundIssues (text : String) : List String :=
  (blockedPatterns.filter (categoryMatches text)).map Prod.fst

/-- The refusal template (summarizer_agent.py lines 51–55). -/
def refusalMessage (issues : List String) (text : String) : String :=
  "I apologize, but I cannot provide advice related to " ++
  joinSep ", " issues ++
  ". Please focus your questions on pension analysis, risk assessment, or fraud detection. Here is the relevant financial data: " ++
  strTake text 200 ++ "..."

/-- `apply_content_guardrails` (summarizer_agent.py lines 17–58). -/
def apply_content_guardrails (text : String) : String :=
  let found_issues := foundIssues text
  if found_issues.isEmpty then text
  else refusalMessage found_issues text

/-- `summarizer_with_charts` (summarizer_agent.py lines 60–87).  The
narrative LLM (`summarizer_prompt | llm`) is the `synthesize` parameter.
The `[FINAL_RESPONSE]`-tagged message renders the response dict with the
same simplified container rendering as `pyStr`. -/
def summarizer_with_charts (synthesize : List Msg → String) (state : AgentState) :
    List Msg × FinalResponse :=
  let summary_text := apply_content_guardrails (synthesize state.messages)
  let final_response : FinalResponse :=
    { summary := summary_text, charts := state.charts,
      plotly_figs := state.plotly_figs, chart_images := state.chart_images }
  (state.messages ++ [Msg.ai ("[FINAL_RESPONSE] " ++ "<dict>")], final_response)

/-- `summarizer_node` (workflow.py lines 194–219).  The chain's
`final_response` dict always carries its four keys, so it is always
truthy and the structured branch is taken: the node rebuilds
`new_messages` from the state's own messages plus the summary text. -/
def summarizer_node (synthesize : List Msg → String) (state : AgentState) :
    List Msg × FinalResponse :=
  let final_response := (summarizer_with_charts synthesize state).2
  (state.messages ++ [Msg.ai final_response.summary], final_response)

/-- Is `c` an ASCII digit? -/
def isDigitChar (c : Char) : Bool :=
  48 ≤ c.toNat && c.toNat ≤ 57

/-- Accumulate a digit run into a natural number. -/
def digitsToNat (acc : Nat) : List Char → Nat
  | [] => acc
  | c :: r => digitsToNat (acc * 10 + (c.toNat - 48)) r

/-- Split a character list at the first occurrence of `c`:
the part before it, and (when found) the part after it. -/
def splitAtChar (c : Char) : List Char → List Char × Option (List Char)
  | [] => ([], Option.none)
  | x :: r =>
      if x = c then ([], some r)
      else
        let p := splitAtChar c r
        (x :: p.1, p.2)

/-- `float(s)` on the decimal literals pension data uses: optional sign,
digits with at most one decimal point, at least one digit.  Anything
else (the shapes on which Python `float` raises) is `none`. -/
def parseRat (s : String) : Option Rat :=
  let p :=
    match s.data with
    | '-' :: r => (true, r)
    | '+' :: r => (false, r)
    | r => (false, r)
  let q := splitAtChar '.' p.2
  let fp := match q.2 with | Option.none => [] | some f => f
  let noSecondDot :=
    match q.2 with
    | Option.none => true
    | some f => !(f.any (fun c => c = '.'))
  if q.1.all isDigitChar && fp.all isDigitChar && noSecondDot &&
      !(q.1.isEmpty && fp.isEmpty) then
    let mag : Rat :=
      (digitsToNat 0 q.1 : Rat) + (digitsToNat 0 fp : Rat) / ((10 : Rat) ^ fp.length)
    some (if p.1 then -mag else mag)
  else Option.none

/-- `int(s)` on decimal literals: optional sign then digits only. -/
def parseInt (s : String) : Option Int :=
  match s.data with
  | '-' :: r =>
      if !r.isEmpty && r.all isDigitChar then some (-(digitsToNat 0 r : Int))
      else Option.none
  | '+' :: r =>
      if !r.isEmpty && r.all isDigitChar then some (digitsToNat 0 r)
      else Option.none
  | r =>
      if !r.isEmpty && r.all isDigitChar then some (digitsToNat 0 r)
      else Option.none

/-- Truncation toward zero, as Python `int(float)` rounds. -/
def ratTrunc (q : Rat) : Int :=
  if 0 ≤ q then q.floor else q.ceil

/-- `int(x)`: `none` models a raised `ValueError`/`TypeError`. -/
def pyInt : PyVal → Option Int
  | .int n => some n
  | .float q => some (ratTrunc q)
  | .pybool b => some (if b then 1 else 0)
  | .str s => parseInt s
  | _ => Option.none

/-- `float(x)`: `none` models a raised error. -/
def pyFloat : PyVal → Option Rat
  | .int n => some (n : Rat)
  | .float q => some q
  | .pybool b => some (if b then 1 else 0)
  | .str s => parseRat s
  | _ => Option.none

/-- `isinstance(x, (int, float))` (booleans are ints in Python), with the
numeric value. -/
def pyNumVal : PyVal → Option Rat
  | .int n => some (n : Rat)
  | .float q => some q
  | .pybool b => some (if b then 1 else 0)
  | _ => Option.none

/-- The visualizer's `to_num` (visualizer_agent.py lines 50–54):
`float(str(x).replace("$", "").replace(",", ""))`, `none` on failure.
`str` then `float` round-trips numeric values; booleans, `None` and
containers stringify to unparsable text. -/
def to_num : PyVal → Option Rat
  | .int n => some (n : Rat)
  | .float q => some q
  | .str s => parseRat ⟨s.data.filter (fun c => !(c == '$') && !(c == ','))⟩
  | _ => Option.none

/-- `d.get(k, default)`. -/
def dictGetD (es : List (String × PyVal)) (k : String) (d : PyVal) : PyVal :=
  (dictGet es k).getD d

/-- The visualizer's first scan (visualizer_agent.py lines 29–42): the
first step whose action's tool equals `name` and whose observation is a
dict. -/
def firstDictObs (steps : List Step) (name : String) :
    Option (List (String × PyVal)) :=
  match steps with
  | [] => Option.none
  | (a, obs) :: rest =>
      match obs with
      | .pdict es => if a.tool == name then some es else firstDictObs rest name
      | _ => firstDictObs rest name

/-- The projection chart block (visualizer_agent.py lines 47–72): needs
`int(... or 0)` not to raise, and numeric start/end balances; a failure
anywhere is swallowed by the surrounding `try`, yielding no chart. -/
def projectionChart (pd : List (String × PyVal)) : Option PyVal :=
  let yearsOpt : Option Int :=
    match dictGet pd "projection_period_years" with
    | Option.none => some 0
    | some v => if v.truthy then pyInt v else some 0
  match yearsOpt with
  | Option.none => Option.none
  | some years =>
      match to_num (dictGetD pd "starting_balance" PyVal.none),
            to_num (dictGetD pd "projected_balance" PyVal.none) with
      | some start_val, some end_val =>
          some (PyVal.pdict
            [("$schema", .str "https://vega.github.io/schema/vega-lite/v5.json"),
             ("description", .str "Projected balance over time"),
             ("data", .pdict [("values", .plist
                [.pdict [("year", .int 0), ("balance", .float start_val)],
                 .pdict [("year", .int (if years = 0 then 10 else years)),
                         ("balance", .float end_val)]])]),
             ("mark", .pdict [("type", .str "line"), ("point", .pybool true)]),
             ("encoding", .pdict
                [("x", .pdict [("field", .str "year"),
                               ("type", .str "quantitative"),
                               ("title", .str "Year")]),
                 ("y", .pdict [("field", .str "balance"),
                               ("type", .str "quantitative"),
                               ("title", .str "Balance ($)")])])])
      | _, _ => Option.none

/-- The risk chart block (visualizer_agent.py lines 74–90). -/
def riskChart (rd : List (String × PyVal)) : Option PyVal :=
  match pyNumVal (dictGetD rd "risk_score" PyVal.none) with
  | some score =>
      some (PyVal.pdict
        [("$schema", .str "https://vega.github.io/schema/vega-lite/v5.json"),
         ("description", .str "Risk score"),
         ("data", .pdict [("values", .plist
            [.pdict [("metric", .str "Risk Score"), ("value", .float score)]])]),
         ("mark", .str "bar"),
         ("encoding", .pdict
            [("x", .pdict [("field", .str "metric"), ("type", .str "nominal"),
                           ("title", .str "")]),
             ("y", .pdict [("field", .str "value"), ("type", .str "quantitative"),
                           ("title", .str "Score")])])])
  | Option.none => Option.none

/-- The fraud-confidence chart (visualizer_agent.py lines 93–107). -/
def fraudChart (fd : List (String × PyVal)) : Option PyVal :=
  match pyNumVal (dictGetD fd "confidence_score" PyVal.none) with
  | some conf =>
      some (PyVal.pdict
        [("$schema", .str "https://vega.github.io/schema/vega-lite/v5.json"),
         ("description", .str "Fraud confidence"),
         ("data", .pdict [("values", .plist
            [.pdict [("metric", .str "Fraud Confidence"),
                     ("value", .float conf)]])]),
         ("mark", .str "bar"),
         ("encoding", .pdict
            [("x", .pdict [("field", .str "metric"), ("type", .str "nominal"),
                           ("title", .str "")]),
             ("y", .pdict [("field", .str "value"), ("type", .str "quantitative"),
                           ("title", .str "Confidence")])])])
  | Option.none => Option.none

/-- The auxiliary fraud-flag entry (visualizer_agent.py lines 108–109):
recorded when `is_fraudulent` is a bool. -/
def fraudFlag (fd : List (String × PyVal)) : Option PyVal :=
  match dictGetD fd "is_fraudulent" PyVal.none with
  | .pybool b => some (PyVal.pdict [("is_fraudulent", .pybool b)])
  | _ => Option.none

/-- A singleton dict entry when the optional payload exists. -/
def optEntry (k : String) (v : Option PyVal) : List (String × PyVal) :=
  match v with
  | some c => [(k, c)]
  | Option.none => []

/-- The `charts` dict assembled by the visualizer, in insertion order
`projection`, `risk`, `fraud`, `fraud_flag`. -/
def vizCharts (steps : List Step) : List (String × PyVal) :=
  let projection_data := firstDictObs steps "project_pension"
  let risk_data := firstDictObs steps "analyze_risk_profile"
  let fraud_data := firstDictObs steps "detect_fraud"
  optEntry "projection" (projection_data.bind projectionChart) ++
  optEntry "risk" (risk_data.bind riskChart) ++
  optEntry "fraud" (fraud_data.bind fraudChart) ++
  optEntry "fraud_flag" (fraud_data.bind fraudFlag)

/-- The image-export loop (visualizer_agent.py lines 113–118): one image
per chart whose rasterisation returns a truthy URI.  The rasteriser
(`_spec_to_png_data_uri`) is the external collaborator `rasterize`. -/
def vizImages (rasterize : PyVal → Option String)
    (charts : List (String × PyVal)) : List (String × String) :=
  charts.filterMap (fun e =>
    match rasterize e.2 with
    | some u => if u == "" then Option.none else some (e.1, u)
    | Option.none => Option.none)

/-- The projection Plotly figure (visualizer_agent.py lines 122–141):
read back from `charts["projection"]`; a malformed shape raises inside
the `try` and is swallowed. -/
def plotlyProjectionFig (charts : List (String × PyVal)) : Option PyVal :=
  match dictGet charts "projection" with
  | some (PyVal.pdict proj) =>
      if proj.isEmpty then Option.none
      else
        match dictGetD proj "data" (PyVal.pdict []) with
        | .pdict dd =>
            match dictGetD dd "values" (PyVal.plist []) with
            | .plist values =>
                if values.all (fun v => match v with
                    | PyVal.pdict _ => true
                    | _ => false) then
                  let xs := values.map (fun v => match v with
                    | PyVal.pdict es => dictGetD es "year" PyVal.none
                    | _ => PyVal.none)
                  let ys := values.map (fun v => match v with
                    | PyVal.pdict es => dictGetD es "balance" PyVal.none
                    | _ => PyVal.none)
                  if values.length ≥ 2 then
                    some (PyVal.pdict
                      [("data", .plist [.pdict
                         [("type", .str "scatter"),
                          ("mode", .str "lines+markers"),
                          ("x", .plist xs), ("y", .plist ys),
                          ("name", .str "Balance")]]),
                       ("layout", .pdict
                         [("title", .str "Projected balance over time"),
                          ("xaxis", .pdict [("title", .str "Year")]),
                          ("yaxis", .pdict [("title", .str "Balance ($)")])])])
                  else Option.none
                else Option.none
            | _ => Option.none
        | _ => Option.none
  | _ => Option.none

/-- A bar Plotly figure read back from `charts[key]`
(visualizer_agent.py lines 144–156 and 159–171). -/
def plotlyBarFig (charts : List (String × PyVal)) (key label title : String) :
    Option PyVal :=
  match dictGet charts key with
  | some (PyVal.pdict spec) =>
      if spec.isEmpty then Option.none
      else
        match dictGetD spec "data" (PyVal.pdict []) with
        | .pdict dd =>
            match dictGetD dd "values" (PyVal.plist []) with
            | .plist (v0 :: _) =>
                match v0 with
                | .pdict es =>
                    match dictGet es "value" with
                    | some val =>
                        match pyFloat val with
                        | some q =>
                            some (PyVal.pdict
                              [("data", .plist [.pdict
                                 [("type", .str "bar"),
                                  ("x", .plist [.str label]),
                                  ("y", .plist [.float q]),
                                  ("name", .str label)]]),
                               ("layout", .pdict [("title", .str title)])])
                        | Option.none => Option.none
                    | Option.none => Option.none
                | _ => Option.none
            | _ => Option.none
        | _ => Option.none
  | _ => Option.none

/-- The `plotly_figs` dict, in insertion order `projection`, `risk`,
`fraud`. -/
def plotlyFigsOf (charts : List (String × PyVal)) : List (String × PyVal) :=
  optEntry "projection" (plotlyProjectionFig charts) ++
  optEntry "risk" (plotlyBarFig charts "risk" "Risk Score" "Risk score") ++
  optEntry "fraud" (plotlyBarFig charts "fraud" "Fraud Confidence" "Fraud confidence")

/-- The dict `visualizer_node` returns: `messages` always; each of the
three maps only when non-empty (modelled as the empty list meaning the
key is absent). -/
structure VizUpdate where
  messages : List Msg
  charts : List (String × PyVal)
  chart_images : List (String × String)
  plotly_figs : List (String × PyVal)

/-- `visualizer_node` (visualizer_agent.py lines 23–187). -/
def visualizer_node (rasterize : PyVal → Option String) (state : AgentState) :
    VizUpdate :=
  let charts := vizCharts state.intermediate_steps
  let chart_images := vizImages rasterize charts
  let plotly_figs := plotlyFigsOf charts
  let msgs :=
    state.messages ++ [Msg.ai ("[CHART_SPECS] " ++ "<dict>")] ++
    (if chart_images.isEmpty then [] else [Msg.ai ("[CHART_IMAGES] " ++ "<dict>")]) ++
    (if plotly_figs.isEmpty then [] else [Msg.ai ("[PLOTLY_FIGS] " ++ "<dict>")])
  { messages := msgs, charts := charts, chart_images := chart_images,
    plotly_figs := plotly_figs }

/-- The graph's nodes (workflow.py lines 226–247): the named nodes, the
terminal `END`, plus `keyError` for a `next` value outside the
conditional-edge mapping (the lambda's dict lookup raises `KeyError`). -/
inductive Node where
  | supervisor
  | risk_analyst
  | fraud_detector
  | projection_specialist
  | summarizer
  | visualizer
  | endNode
  | keyError
deriving Repr, DecidableEq

/-- The conditional-edge mapping after `supervisor`
(workflow.py lines 240–247). -/
def routeNext : String → Node
  | "risk_analyst" => .risk_analyst
  | "fraud_detector" => .fraud_detector
  | "projection_specialist" => .projection_specialist
  | "summarizer" => .summarizer
  | "visualizer" => .visualizer
  | "FINISH" => .endNode
  | _ => .keyError

/-- The external collaborators of one run. -/
structure Collaborators where
  classify : List Msg → Option String
  risk_worker : String → WorkerResult
  fraud_worker : String → WorkerResult
  projection_worker : String → WorkerResult
  synthesize : List Msg → String
  rasterize : PyVal → Option String

/-- Merge an `agent_node` update into the state: `messages` is replaced
by the full appended list the node built; the `intermediate_steps`
channel is written only when the key is present. -/
def applyAgentUpdate (s : AgentState) (u : AgentUpdate) : AgentState :=
  { s with
    messages := u.messages,
    intermediate_steps :=
      match u.intermediate_steps with
      | some st => st
      | Option.none => s.intermediate_steps }

/-- One transition of the compiled graph (workflow.py lines 226–258):
`supervisor` routes by the conditional edge on the updated `next`; each
specialist and the visualizer return to `supervisor`; the summarizer
ends the run. -/
def stepRun (c : Collaborators) : Node × AgentState → Node × AgentState
  | (.supervisor, s) =>
      let r := supervisor_node c.classify s
      (routeNext r.1, { s with next := r.1, turns := r.2 })
  | (.risk_analyst, s) =>
      (.supervisor, applyAgentUpdate s (agent_node c.risk_worker s))
  | (.fraud_detector, s) =>
      (.supervisor, applyAgentUpdate s (agent_node c.fraud_worker s))
  | (.projection_specialist, s) =>
      (.supervisor, applyAgentUpdate s (agent_node c.projection_worker s))
  | (.visualizer, s) =>
      let u := visualizer_node c.rasterize s
      (.supervisor,
        { s with
          messages := u.messages,
          charts := if u.charts.isEmpty then s.charts else u.charts,
          chart_images :=
            if u.chart_images.isEmpty then s.chart_images else u.chart_images,
          plotly_figs :=
            if u.plotly_figs.isEmpty then s.plotly_figs else u.plotly_figs })
  | (.summarizer, s) =>
      let r := summarizer_node c.synthesize s
      (.endNode, { s with messages := r.1, final_response := some r.2 })
  | (.endNode, s) => (.endNode, s)
  | (.keyError, s) => (.keyError, s)

/-- Run the graph for at most `fuel` transitions, stopping at `END` or
at a routing `KeyError`. -/
def runFuel (c : Collaborators) : Nat → Node × AgentState → Node × AgentState
  | 0, ns => ns
  | n + 1, ns =>
      if ns.1 = Node.endNode ∨ ns.1 = Node.keyError then ns
      else runFuel c n (stepRun c ns)

/-- A fresh run's state, seeded with the single user query. -/
def initState (query : String) : AgentState :=
  { messages := [Msg.human query], next := "", intermediate_steps := [],
    turns := 0, charts := [], chart_images := [], plotly_figs := [],
    final_response := Option.none }

/-- The most recent user-authored message, lower-cased — the query the
spec says the post-worker check reads.  This is the spec's wording, kept
separate from the code's scan `firstUserQuery` for comparison. -/
def recentUserQuery (msgs : List Msg) : String :=
  match msgs.reverse.find? isUserMsg with
  | some m => strLower (msgContent m)
  | Option.none => ""

/-- Fixture: an adversarial/looping classifier that always asks for the
risk worker, with workers that return plain strings (no tool trace). -/
def advCollaborators : Collaborators :=
  { classify := fun _ => some "risk_analyst",
    risk_worker := fun _ => .str "risk looks fine",
    fraud_worker := fun _ => .str "no fraud found",
    projection_worker := fun _ => .str "projection done",
    synthesize := fun _ => "All done.",
    rasterize := fun _ => Option.none }

/-- Fixture: the post-worker state of the scenario
`"What will my pension be in 10 years?"` after the projection worker
ran, with one `project_pension` ledger entry. -/
def pensionScenarioState : AgentState :=
  { messages := [Msg.human "What will my pension be in 10 years?"],
    next := "projection_specialist",
    intermediate_steps :=
      [(⟨"project_pension", PyVal.str "10 years"⟩,
        PyVal.str "Projected balance: $150,000")],
    turns := 1, charts := [], chart_images := [], plotly_figs := [],
    final_response := Option.none }

/-- Fixture: two user-authored messages whose earliest asks for a chart
and whose most recent does not. -/
def twoUserState : AgentState :=
  { messages := [Msg.human "Show me a chart of my risk profile",
                 Msg.human "thanks anyway"],
    next := "risk_analyst",
    intermediate_steps :=
      [(⟨"analyze_risk_profile", PyVal.str "q"⟩, PyVal.str "score 4")],
    turns := 1, charts := [], chart_images := [], plotly_figs := [],
    final_response := Option.none }

/-- Fixture: a post-worker state whose turn counter is 3, used to watch
the counter across non-fresh branches. -/
def turnsThreeState : AgentState :=
  { messages := [Msg.human "check my risk"],
    next := "risk_analyst",
    intermediate_steps :=
      [(⟨"analyze_risk_profile", PyVal.str "q"⟩, PyVal.str "score 4")],
    turns := 3, charts := [], chart_images := [], plotly_figs := [],
    final_response := Option.none }

/-- Fixture: the tool trace of a structured worker result. -/
def c5Steps : List Step :=
  [(⟨"project_pension", PyVal.str "10"⟩, PyVal.str "Projected: $150,000"),
   (⟨"analyze_risk_profile", PyVal.str "q"⟩,
    PyVal.pdict [("risk_score", PyVal.int 4)])]

/-- Fixture: a worker returning a structured result with a tool trace. -/
def c5Worker : String → WorkerResult :=
  fun _ => .wdict (some "Your projection is ready") c5Steps

/-- Fixture: a state whose messages hold no user-authored entry in any
accepted representation. -/
def c6State : AgentState :=
  { messages := [Msg.ai "hello", Msg.dictMsg "assistant" "hi",
                 Msg.tupleMsg "system" "note"],
    next := "risk_analyst", intermediate_steps := [], turns := 1,
    charts := [], chart_images := [], plotly_figs := [],
    final_response := Option.none }

/-- Fixture: a post-worker state with a risk observation dict. -/
def vizFixtureState : AgentState :=
  { messages := [Msg.human "chart my risk"], next := "visualizer",
    intermediate_steps :=
      [(⟨"analyze_risk_profile", PyVal.str "q"⟩,
        PyVal.pdict [("risk_score", PyVal.int 4)])],
    turns := 1, charts := [], chart_images := [], plotly_figs := [],
    final_response := Option.none }

/-- Fixture: a rasteriser that always succeeds. -/
def fixedRasterize : PyVal → Option String :=
  fun _ => some "data:image/png;base64,xyz"

/-- The data channels an adversarial plain-string run never populates. -/
def EmptyDataInv (s : AgentState) : Prop :=
  s.intermediate_steps = [] ∧ s.charts = [] ∧ s.chart_images = [] ∧
  s.plotly_figs = [] ∧ s.final_response = Option.none

/-! ### Shared lemmas about the supervisor's three branches -/

lemma list_isEmpty_false {α : Type} {l : List α} (h : l ≠ []) :
    l.isEmpty = false := by
  cases l with
  | nil => exact absurd rfl h
  | cons a t => rfl

/-- In the post-worker branch (some ledger entries, no visualization
data), the supervisor's decision is exactly the `should_visualize` test
over the scanned query, and the turn counter passes through unchanged. -/
lemma supervisor_postworker (classify : List Msg → Option String) (s : AgentState)
    (h1 : s.intermediate_steps ≠ []) (h2 : s.charts = [])
    (h3 : s.chart_images = []) (h4 : s.plotly_figs = []) :
    supervisor_node classify s =
      ((if shouldVisualize (firstUserQuery s.messages) s.intermediate_steps
        then "visualizer" else "summarizer"), s.turns) := by
  have h1' := list_isEmpty_false h1
  simp only [supervisor_node, h1', h2, h3, h4, List.isEmpty_nil, Bool.not_true,
    Bool.not_false, Bool.or_self, Bool.or_false, Bool.false_or, if_false,
    Bool.false_eq_true, ite_false, ite_true]
  split <;> rfl

/-- In the fresh-query branch with the cap reached, the supervisor
forces `FINISH` regardless of the collaborator. -/
lemma supervisor_fresh_cap (classify : List Msg → Option String) (s : AgentState)
    (h1 : s.intermediate_steps = []) (h2 : s.charts = [])
    (h3 : s.chart_images = []) (h4 : s.plotly_figs = [])
    (hcap : 5 ≤ s.turns + 1) :
    supervisor_node classify s = ("FINISH", s.turns + 1) := by
  have hf : optStrFalsy (some "FINISH") = false := rfl
  simp [supervisor_node, h1, h2, h3, h4, hcap, hf]

/-- In the fresh-query branch below the cap, a falsy collaborator value
is coerced to `FINISH`. -/
lemma supervisor_fresh_falsy (classify : List Msg → Option String) (s : AgentState)
    (h1 : s.intermediate_steps = []) (h2 : s.charts = [])
    (h3 : s.chart_images = []) (h4 : s.plotly_figs = [])
    (hfal : optStrFalsy (classify s.messages) = true) :
    supervisor_node classify s = ("FINISH", s.turns + 1) := by
  have hf : optStrFalsy (some "FINISH") = false := rfl
  by_cases hcap : 5 ≤ s.turns + 1
  · simp [supervisor_node, h1, h2, h3, h4, hcap, hf]
  · simp [supervisor_node, h1, h2, h3, h4, hcap, hfal]

/-- In the fresh-query branch below the cap, a non-empty collaborator
value passes through unchanged. -/
lemma supervisor_fresh_route (classify : List Msg → Option String) (s : AgentState)
    (v : String) (h1 : s.intermediate_steps = []) (h2 : s.charts = [])
    (h3 : s.chart_images = []) (h4 : s.plotly_figs = [])
    (hcap : s.turns + 1 < 5) (hv : classify s.messages = some v) (hne : v ≠ "") :
    supervisor_node classify s = (v, s.turns + 1) := by
  have hnc : ¬ 5 ≤ s.turns + 1 := by omega
  have hf : optStrFalsy (some v) = false := by
    simp [optStrFalsy]
    exact hne
  simp [supervisor_node, h1, h2, h3, h4, hnc, hv, hf]

/-- `firstUserQuery` is the earliest user-authored message, lower-cased
(`List.find?` is the first match). -/
lemma firstUserQuery_eq_find (msgs : List Msg) :
    firstUserQuery msgs =
      ((msgs.find? isUserMsg).map (fun m => strLower (msgContent m))).getD "" := by
  induction msgs with
  | nil => rfl
  | cons m rest ih =>
      by_cases h : isUserMsg m
      · simp [firstUserQuery, List.find?_cons_of_pos _ h, h]
      · have h' : isUserMsg m = false := by
          cases hb : isUserMsg m
          · rfl
          · exact absurd hb h
        simp [firstUserQuery, List.find?_cons_of_neg _ h, h', ih]

/-! ### C2 — the turn counter across branches -/

/-- C2: the claim that `turns` is incremented exactly once in EVERY
supervisor branch is false: in the post-worker branch (here with
`turns = 3`) the counter is returned unchanged, not incremented. -/
theorem C2_counterexample :
    (supervisor_node (fun _ => some "risk_analyst") turnsThreeState).2 ≠
      turnsThreeState.turns + 1 ∧
    (supervisor_node (fun _ => some "risk_analyst") turnsThreeState).2 = 3 := by
  exact ⟨by decide, by decide⟩

/-- C2 (amended): `supervisor_node` increments `turns` exactly once in
the fresh-query branch (no ledger entries and no visualization data) and
returns it unchanged in the terminal-data and post-worker branches. -/
theorem C2_turns_increment (classify : List Msg → Option String) (s : AgentState) :
    (supervisor_node classify s).2 =
      if s.charts.isEmpty && s.plotly_figs.isEmpty && s.chart_images.isEmpty &&
          s.intermediate_steps.isEmpty
      then s.turns + 1 else s.turns := by
  by_cases h1 : s.charts.isEmpty <;> by_cases h2 : s.plotly_figs.isEmpty <;>
    by_cases h3 : s.chart_images.isEmpty <;>
    by_cases h4 : s.intermediate_steps.isEmpty <;>
    simp [supervisor_node, h1, h2, h3, h4, apply_ite Prod.snd]

/-! ### C3 — which user message feeds the post-worker check -/

/-- C3: the claim that the post-worker check reads the MOST RECENT
user-authored message is false: with two user messages the code reads
the earliest one, and here that changes the routing decision (the
earliest asks for a chart, the most recent does not). -/
theorem C3_counterexample :
    firstUserQuery twoUserState.messages ≠ recentUserQuery twoUserState.messages ∧
    recentUserQuery twoUserState.messages = "thanks anyway" ∧
    shouldVisualize (recentUserQuery twoUserState.messages)
      twoUserState.intermediate_steps = false ∧
    (supervisor_node (fun _ => some "risk_analyst") twoUserState).1 =
      "visualizer" := by
  exact ⟨by decide, by decide, by decide, by decide⟩

/-- C3 (amended): in the post-worker branch, the query text feeding the
keyword flags is the EARLIEST user-authored message in `messages`,
lower-cased (the forward scan breaks at the first match). -/
theorem C3_earliest_user_query (classify : List Msg → Option String)
    (s : AgentState) (h1 : s.intermediate_steps ≠ []) (h2 : s.charts = [])
    (h3 : s.chart_images = []) (h4 : s.plotly_figs = []) :
    (supervisor_node classify s).1 =
      (if shouldVisualize
            (((s.messages.find? isUserMsg).map
                (fun m => strLower (msgContent m))).getD "")
            s.intermediate_steps
       then "visualizer" else "summarizer") := by
  rw [supervisor_postworker classify s h1 h2 h3 h4, ← firstUserQuery_eq_find]

/-- Witness for C3 (amended) at a concrete two-user-message state. -/
theorem C3_earliest_user_query_witness :
    (supervisor_node (fun _ => some "risk_analyst") twoUserState).1 =
      (if shouldVisualize
            (((twoUserState.messages.find? isUserMsg).map
                (fun m => strLower (msgContent m))).getD "")
            twoUserState.intermediate_steps
       then "visualizer" else "summarizer") :=
  C3_earliest_user_query (fun _ => some "risk_analyst") twoUserState
    (by simp [twoUserState]) rfl rfl rfl

/-! ### C4 — visualization-intent keywords force the visualizer -/

/-- C4: in the post-worker branch (ledger non-empty, no visualization
data), a query containing any visualization-intent keyword routes to
`visualizer` (never directly to the summarizer), and when no flag of the
`should_visualize` test holds the route is `summarizer`. -/
theorem C4_keyword_forces_visualizer (classify : List Msg → Option String)
    (s : AgentState) (h1 : s.intermediate_steps ≠ []) (h2 : s.charts = [])
    (h3 : s.chart_images = []) (h4 : s.plotly_figs = []) :
    ((strContains (firstUserQuery s.messages) "chart" ||
      strContains (firstUserQuery s.messages) "graph" ||
      strContains (firstUserQuery s.messages) "visual" ||
      strContains (firstUserQuery s.messages) "plot" ||
      strContains (firstUserQuery s.messages) "show me" ||
      strContains (firstUserQuery s.messages) "display") = true →
      (supervisor_node classify s).1 = "visualizer") ∧
    (shouldVisualize (firstUserQuery s.messages) s.intermediate_steps = false →
      (supervisor_node classify s).1 = "summarizer") := by
  rw [supervisor_postworker classify s h1 h2 h3 h4]
  constructor
  · intro h
    have hv : shouldVisualize (firstUserQuery s.messages) s.intermediate_steps
        = true := by
      unfold shouldVisualize
      simp only [Bool.or_eq_true] at h ⊢
      tauto
    simp [hv]
  · intro h
    simp [h]

/-- Witness for C4 at a concrete keyword-bearing state. -/
theorem C4_witness :
    (supervisor_node (fun _ => some "risk_analyst") twoUserState).1 =
      "visualizer" :=
  (C4_keyword_forces_visualizer (fun _ => some "risk_analyst") twoUserState
    (by simp [twoUserState]) rfl rfl rfl).1 (by decide)

/-! ### C8 — fresh-query coercion of the collaborator's value -/

/-- C8: the claim that any value outside the step enumeration is coerced
to `FINISH` is false: a non-empty unrecognized value (here `"banana"`)
is passed through unchanged, leaving `next` outside the enumeration. -/
theorem C8_counterexample :
    (supervisor_node (fun _ => some "banana") (initState "hi")).1 = "banana" ∧
    "banana" ∉ ["risk_analyst", "fraud_detector", "projection_specialist",
                "summarizer", "visualizer", "FINISH"] := by
  exact ⟨by decide, by decide⟩

/-- C8 (amended): after a fresh-query routing call, an empty/`None`
collaborator value is coerced to `FINISH`, and the cap forces `FINISH`;
but a non-empty value below the cap — recognized or not — is passed
through unchanged. -/
theorem C8_fresh_query_coercion (classify : List Msg → Option String)
    (s : AgentState) (h1 : s.intermediate_steps = []) (h2 : s.charts = [])
    (h3 : s.chart_images = []) (h4 : s.plotly_figs = []) :
    (optStrFalsy (classify s.messages) = true →
      (supervisor_node classify s).1 = "FINISH") ∧
    (5 ≤ s.turns + 1 → (supervisor_node classify s).1 = "FINISH") ∧
    (∀ v, classify s.messages = some v → v ≠ "" → s.turns + 1 < 5 →
      (supervisor_node classify s).1 = v) := by
  refine ⟨fun hfal => ?_, fun hcap => ?_, fun v hv hne hcap => ?_⟩
  · rw [supervisor_fresh_falsy classify s h1 h2 h3 h4 hfal]
  · rw [supervisor_fresh_cap classify s h1 h2 h3 h4 hcap]
  · rw [supervisor_fresh_route classify s v h1 h2 h3 h4 hcap hv hne]

/-- Witness for C8 (amended): a `None` collaborator value is coerced to
`FINISH`; a recognized worker name passes through. -/
theorem C8_witness :
    (supervisor_node (fun _ => Option.none) (initState "hi")).1 = "FINISH" ∧
    (supervisor_node (fun _ => some "risk_analyst") (initState "hi")).1 =
      "risk_analyst" :=
  ⟨(C8_fresh_query_coercion (fun _ => Option.none) (initState "hi")
      rfl rfl rfl rfl).1 rfl,
   (C8_fresh_query_coercion (fun _ => some "risk_analyst") (initState "hi")
      rfl rfl rfl rfl).2.2 "risk_analyst" rfl (by decide) (by decide)⟩

/-! ### C9 — the 10-year pension scenario -/

/-- C9: the claim that the scenario query routes to the summarizer is
false: the query contains "pension" and the ledger has a truthy
`project_pension` observation, so the data-plus-topic flag fires. -/
theorem C9_counterexample :
    (supervisor_node (fun _ => some "projection_specialist")
      pensionScenarioState).1 ≠ "summarizer" := by
  decide

/-- C9 (amended): after the projection worker runs on
`"What will my pension be in 10 years?"`, the policy routes to the
visualizer: the query mentions "pension" and projection data exists, so
`should_visualize` is true even though no explicit chart keyword occurs. -/
theorem C9_pension_scenario :
    (supervisor_node (fun _ => some "projection_specialist")
      pensionScenarioState).1 = "visualizer" ∧
    hasToolData pensionScenarioState.intermediate_steps "project_pension" =
      true ∧
    strContains (firstUserQuery pensionScenarioState.messages) "pension" =
      true ∧
    strContains (firstUserQuery pensionScenarioState.messages) "chart" =
      false := by
  exact ⟨by decide, by decide, by decide, by decide⟩

/-! ### C5 — the ledger round-trip through the Worker Adapter -/

lemma append_isEmpty_false {α : Type} (xs ys : List α) (h : ys ≠ []) :
    (xs ++ ys).isEmpty = false := by
  apply list_isEmpty_false
  simp [h]

/-- C5: a structured worker result's `(toolCall, observation)` pairs are
appended to the ledger byte-for-byte unmodified; the 200-character
truncation (`strTake … 200` inside `toolSummaryLine`) touches only the
human-readable tools-executed summary message. -/
theorem C5_ledger_roundtrip (worker : String → WorkerResult) (s : AgentState)
    (ft : Option String) (steps : List Step)
    (huser : optStrFalsy (lastUserText s.messages) = false)
    (hres : worker ((lastUserText s.messages).getD "") = .wdict ft steps)
    (hne : steps ≠ []) :
    (agent_node worker s).intermediate_steps =
      some (s.intermediate_steps ++ steps) ∧
    (agent_node worker s).messages =
      s.messages ++
        (if optStrFalsy ft then [] else [Msg.ai (ft.getD "")]) ++
        [Msg.ai ("[Tools executed]\n" ++
          joinSep "\n" (steps.map toolSummaryLine))] := by
  have hempty := list_isEmpty_false hne
  have happ := append_isEmpty_false s.intermediate_steps steps hne
  simp only [agent_node, huser, Bool.false_eq_true, if_false, ite_false]
  rw [hres]
  simp [normalizeWorkerResult, hempty, happ]

/-- Witness for C5 at a concrete worker with a two-entry tool trace. -/
theorem C5_witness :
    (agent_node c5Worker (initState "project my pension")).intermediate_steps =
      some ((initState "project my pension").intermediate_steps ++ c5Steps) ∧
    (agent_node c5Worker (initState "project my pension")).messages =
      (initState "project my pension").messages ++
        (if optStrFalsy (some "Your projection is ready") then []
         else [Msg.ai ((some "Your projection is ready").getD "")]) ++
        [Msg.ai ("[Tools executed]\n" ++
          joinSep "\n" (c5Steps.map toolSummaryLine))] :=
  C5_ledger_roundtrip c5Worker (initState "project my pension")
    (some "Your projection is ready") c5Steps rfl rfl (by simp [c5Steps])

/-! ### C6 — no user message: diagnostic only, ledger untouched -/

lemma lastUserText_go_none (l : List Msg) (h : ∀ m ∈ l, isUserMsg m = false) :
    lastUserText.go l = Option.none := by
  induction l with
  | nil => rfl
  | cons m rest ih =>
      simp [lastUserText.go, h m (List.mem_cons_self m rest)]
      exact ih (fun x hx => h x (List.mem_cons_of_mem m hx))

/-- C6: when no message is user-authored in any accepted representation,
`agent_node` short-circuits: it appends only the diagnostic message,
reports no `intermediate_steps` update (ledger unchanged), and its
output does not depend on the worker at all (the worker is not invoked). -/
theorem C6_no_user_message (worker : String → WorkerResult) (s : AgentState)
    (h : ∀ m ∈ s.messages, isUserMsg m = false) :
    agent_node worker s =
      { messages := s.messages ++ [Msg.ai noUserDiagnostic],
        intermediate_steps := Option.none } ∧
    ∀ w2 : String → WorkerResult, agent_node worker s = agent_node w2 s := by
  have hnone : lastUserText s.messages = Option.none := by
    unfold lastUserText
    exact lastUserText_go_none _ (fun m hm => h m (List.mem_reverse.mp hm))
  constructor
  · simp [agent_node, hnone, optStrFalsy]
  · intro w2
    simp [agent_node, hnone, optStrFalsy]

/-- Witness for C6 at a state of purely non-user messages. -/
theorem C6_witness :
    agent_node (fun _ => WorkerResult.str "unused") c6State =
      { messages := c6State.messages ++ [Msg.ai noUserDiagnostic],
        intermediate_steps := Option.none } :=
  (C6_no_user_message (fun _ => WorkerResult.str "unused") c6State
    (by decide)).1

/-! ### C7 — the content guardrail filter -/

/-- C7: a narrative matching no blocked-category pattern passes through
the guardrail unchanged; one matching any category is replaced by the
refusal template, which names the matched categories and carries only a
bounded (≤ 200 characters) preview of the original text. -/
theorem C7_guardrail_filter (text : String) :
    ((∀ cat ∈ blockedPatterns, categoryMatches text cat = false) →
      apply_content_guardrails text = text) ∧
    (∀ cat ∈ blockedPatterns, categoryMatches text cat = true →
      apply_content_guardrails text = refusalMessage (foundIssues text) text ∧
      cat.1 ∈ foundIssues text ∧
      (strTake text 200).length ≤ 200) := by
  constructor
  · intro h
    have hnil : foundIssues text = [] := by
      unfold foundIssues
      rw [List.filter_eq_nil_iff.mpr (fun a ha => by simp [h a ha])]
      rfl
    simp [apply_content_guardrails, hnil]
  · intro cat hmem hmatch
    have hfmem : cat ∈ blockedPatterns.filter (categoryMatches text) :=
      List.mem_filter.mpr ⟨hmem, hmatch⟩
    have hkey : cat.1 ∈ foundIssues text := List.mem_map_of_mem Prod.fst hfmem
    have hne : foundIssues text ≠ [] := List.ne_nil_of_mem hkey
    refine ⟨?_, hkey, ?_⟩
    · simp [apply_content_guardrails, list_isEmpty_false hne]
    · simp only [strTake, String.length]
      have := List.length_take 200 text.data
      omega

/-- Witness for C7: a clean narrative passes unchanged; "bitcoin" trips
the investment-strategy category. -/
theorem C7_witness :
    apply_content_guardrails "Your pension is on track" =
      "Your pension is on track" ∧
    "investment_strategy" ∈ foundIssues "I recommend bitcoin" :=
  ⟨(C7_guardrail_filter "Your pension is on track").1 (by decide),
   ((C7_guardrail_filter "I recommend bitcoin").2
      ("investment_strategy", investmentStrategyPatterns) (by decide)
      (by decide)).2.1⟩

/-! ### C10 — visualizer chart/image/figure key invariants -/

lemma dictKeys_append (a b : List (String × PyVal)) :
    dictKeys (a ++ b) = dictKeys a ++ dictKeys b := by
  simp [dictKeys]

lemma mem_keys_optEntry {k j : String} {v : Option PyVal}
    (h : k ∈ dictKeys (optEntry j v)) : k = j ∧ ∃ c, v = some c := by
  cases v with
  | none => simp [optEntry, dictKeys] at h
  | some c =>
      simp [optEntry, dictKeys] at h
      exact ⟨h, c, rfl⟩

lemma find?_pred {α : Type} (p : α → Bool) (l : List α) (a : α)
    (h : l.find? p = some a) : p a = true := by
  induction l with
  | nil => simp [List.find?] at h
  | cons x xs ih =>
      by_cases hx : p x = true
      · rw [List.find?_cons_of_pos _ hx] at h
        injection h with h
        rw [← h]
        exact hx
      · rw [List.find?_cons_of_neg _ hx] at h
        exact ih h

lemma mem_dictKeys_of_get {es : List (String × PyVal)} {k : String} {v : PyVal}
    (h : dictGet es k = some v) : k ∈ dictKeys es := by
  unfold dictGet at h
  obtain ⟨e, hfind, hsnd⟩ := Option.map_eq_some'.mp h
  have he : e ∈ es := List.mem_of_find?_eq_some hfind
  have hp : (e.1 == k) = true := find?_pred (fun x => x.1 == k) es e hfind
  have hk : e.1 = k := by simpa using hp
  exact hk ▸ List.mem_map_of_mem Prod.fst he

lemma plotlyProjectionFig_key {charts : List (String × PyVal)} {f : PyVal}
    (h : plotlyProjectionFig charts = some f) :
    "projection" ∈ dictKeys charts := by
  unfold plotlyProjectionFig at h
  cases hget : dictGet charts "projection" with
  | none => rw [hget] at h; simp at h
  | some v => exact mem_dictKeys_of_get hget

lemma plotlyBarFig_key {charts : List (String × PyVal)}
    {key label title : String} {f : PyVal}
    (h : plotlyBarFig charts key label title = some f) :
    key ∈ dictKeys charts := by
  unfold plotlyBarFig at h
  cases hget : dictGet charts key with
  | none => rw [hget] at h; simp at h
  | some v => exact mem_dictKeys_of_get hget

lemma vizCharts_keys (steps : List Step) :
    ∀ k ∈ dictKeys (vizCharts steps),
      k ∈ ["projection", "risk", "fraud", "fraud_flag"] := by
  intro k hk
  unfold vizCharts at hk
  rw [dictKeys_append, dictKeys_append, dictKeys_append] at hk
  rcases List.mem_append.mp hk with h | h
  · rcases List.mem_append.mp h with h2 | h2
    · rcases List.mem_append.mp h2 with h3 | h3
      · obtain ⟨rfl, -⟩ := mem_keys_optEntry h3; simp
      · obtain ⟨rfl, -⟩ := mem_keys_optEntry h3; simp
    · obtain ⟨rfl, -⟩ := mem_keys_optEntry h2; simp
  · obtain ⟨rfl, -⟩ := mem_keys_optEntry h; simp

lemma vizImages_keys (rz : PyVal → Option String)
    (charts : List (String × PyVal)) :
    ∀ k ∈ (vizImages rz charts).map Prod.fst, k ∈ dictKeys charts := by
  intro k hk
  obtain ⟨p, hp, hfst⟩ := List.mem_map.mp hk
  obtain ⟨e, he, hfe⟩ := List.mem_filterMap.mp hp
  cases hrz : rz e.2 with
  | none => rw [hrz] at hfe; simp at hfe
  | some u =>
      rw [hrz] at hfe
      have hfe2 : (if (u == "") = true then Option.none
          else some (e.1, u)) = some p := hfe
      by_cases hu : (u == "") = true
      · rw [if_pos hu] at hfe2; simp at hfe2
      · rw [if_neg hu] at hfe2
        have hpe : p = (e.1, u) := by
          injection hfe2 with h
          exact h.symm
        have hke : k = e.1 := by rw [← hfst, hpe]
        exact hke ▸ List.mem_map_of_mem Prod.fst he

lemma plotlyFigsOf_keys (charts : List (String × PyVal)) :
    ∀ k ∈ dictKeys (plotlyFigsOf charts), k ∈ dictKeys charts := by
  intro k hk
  unfold plotlyFigsOf at hk
  rw [dictKeys_append, dictKeys_append] at hk
  rcases List.mem_append.mp hk with h | h
  · rcases List.mem_append.mp h with h2 | h2
    · obtain ⟨rfl, f, hf⟩ := mem_keys_optEntry h2
      exact plotlyProjectionFig_key hf
    · obtain ⟨rfl, f, hf⟩ := mem_keys_optEntry h2
      exact plotlyBarFig_key hf
  · obtain ⟨rfl, f, hf⟩ := mem_keys_optEntry h
    exact plotlyBarFig_key hf

/-- C10: every chart key the Visualization Step emits is one of
`projection`/`risk`/`fraud`/`fraud_flag`, and every key of the rendered
images map and of the Plotly figures map also names an existing chart
descriptor. -/
theorem C10_visualizer_key_invariants (rasterize : PyVal → Option String)
    (s : AgentState) :
    (∀ k ∈ dictKeys (visualizer_node rasterize s).charts,
        k ∈ ["projection", "risk", "fraud", "fraud_flag"]) ∧
    (∀ k ∈ (visualizer_node rasterize s).chart_images.map Prod.fst,
        k ∈ dictKeys (visualizer_node rasterize s).charts) ∧
    (∀ k ∈ dictKeys (visualizer_node rasterize s).plotly_figs,
        k ∈ dictKeys (visualizer_node rasterize s).charts) :=
  ⟨vizCharts_keys s.intermediate_steps,
   vizImages_keys rasterize (vizCharts s.intermediate_steps),
   plotlyFigsOf_keys (vizCharts s.intermediate_steps)⟩

/-- Witness for C10 at a concrete risk observation with a successful
rasteriser: the rendered image's key names an existing chart. -/
theorem C10_witness :
    "risk" ∈ dictKeys (visualizer_node fixedRasterize vizFixtureState).charts :=
  (C10_visualizer_key_invariants fixedRasterize vizFixtureState).2.1 "risk"
    (by decide)

/-! ### C1 — the turn cap and what the forced FINISH leaves behind -/

lemma agent_node_steps_none (w : String → WorkerResult) (s : AgentState)
    (hs : s.intermediate_steps = [])
    (hw : ∀ q, ∃ t, w q = WorkerResult.str t) :
    (agent_node w s).intermediate_steps = Option.none := by
  unfold agent_node
  by_cases h : optStrFalsy (lastUserText s.messages) = true
  · simp [h]
  · have h' : optStrFalsy (lastUserText s.messages) = false := by
      cases hb : optStrFalsy (lastUserText s.messages)
      · rfl
      · exact absurd hb h
    simp only [h', Bool.false_eq_true, if_false, ite_false]
    obtain ⟨t, ht⟩ := hw ((lastUserText s.messages).getD "")
    rw [ht]
    simp [normalizeWorkerResult, hs]

lemma applyAgent_no_steps (w : String → WorkerResult) (s : AgentState)
    (hs : s.intermediate_steps = [])
    (hw : ∀ q, ∃ t, w q = WorkerResult.str t) :
    applyAgentUpdate s (agent_node w s) =
      { s with messages := (agent_node w s).messages } := by
  unfold applyAgentUpdate
  rw [agent_node_steps_none w s hs hw]

/-- One adversarial round, generic in the routed worker: a supervisor
decision below the cap followed by a plain-string worker returns to the
supervisor with the data channels still empty and the turn counter
bumped by exactly one. -/
lemma adversarial_case (c : Collaborators) (s : AgentState)
    (name : String) (nd : Node) (w : String → WorkerResult)
    (h1 : s.intermediate_steps = []) (h2 : s.charts = [])
    (h3 : s.chart_images = []) (h4 : s.plotly_figs = [])
    (h5 : s.final_response = Option.none) (hcap : s.turns + 1 < 5)
    (hv : c.classify s.messages = some name) (hne : name ≠ "")
    (hroute : routeNext name = nd)
    (hw : ∀ q, ∃ t, w q = WorkerResult.str t)
    (hstep_nd : stepRun c (nd, { s with next := name, turns := s.turns + 1 }) =
      (Node.supervisor,
        applyAgentUpdate { s with next := name, turns := s.turns + 1 }
          (agent_node w { s with next := name, turns := s.turns + 1 })))
    (hnd1 : nd ≠ Node.endNode) (hnd2 : nd ≠ Node.keyError) :
    ∃ nd2 s1 s2,
      stepRun c (Node.supervisor, s) = (nd2, s1) ∧
      nd2 ≠ Node.endNode ∧ nd2 ≠ Node.keyError ∧
      stepRun c (nd2, s1) = (Node.supervisor, s2) ∧
      EmptyDataInv s2 ∧ s2.turns = s.turns + 1 := by
  have hsup : supervisor_node c.classify s = (name, s.turns + 1) :=
    supervisor_fresh_route c.classify s name h1 h2 h3 h4 hcap hv hne
  have hsupf : (supervisor_node c.classify s).1 = name := by rw [hsup]
  have hsups : (supervisor_node c.classify s).2 = s.turns + 1 := by rw [hsup]
  have hstep1 : stepRun c (Node.supervisor, s) =
      (nd, { s with next := name, turns := s.turns + 1 }) := by
    show (routeNext (supervisor_node c.classify s).1,
      { s with next := (supervisor_node c.classify s).1,
               turns := (supervisor_node c.classify s).2 }) = _
    rw [hsupf, hsups, hroute]
  refine ⟨nd, { s with next := name, turns := s.turns + 1 },
    applyAgentUpdate { s with next := name, turns := s.turns + 1 }
      (agent_node w { s with next := name, turns := s.turns + 1 }),
    hstep1, hnd1, hnd2, hstep_nd, ⟨?_, h2, h3, h4, h5⟩, rfl⟩
  have hn := agent_node_steps_none w
    { s with next := name, turns := s.turns + 1 } h1 hw
  simp only [applyAgentUpdate, hn]
  exact h1

/-- With an always-route-to-a-worker classifier and plain-string
workers, the run reaches `END` when the counter hits the cap — and the
final response channel is still empty when it does. -/
lemma adversarial_terminates (c : Collaborators)
    (hcl : ∀ msgs, c.classify msgs = some "risk_analyst" ∨
        c.classify msgs = some "fraud_detector" ∨
        c.classify msgs = some "projection_specialist")
    (hrw : ∀ q, ∃ t, c.risk_worker q = WorkerResult.str t)
    (hfw : ∀ q, ∃ t, c.fraud_worker q = WorkerResult.str t)
    (hpw : ∀ q, ∃ t, c.projection_worker q = WorkerResult.str t) :
    ∀ n, 1 ≤ n → ∀ s, EmptyDataInv s → s.turns + n = 5 →
    ∃ sf, runFuel c (2 * n) (Node.supervisor, s) = (Node.endNode, sf) ∧
      sf.turns = 5 ∧ sf.final_response = Option.none := by
  intro n
  induction n with
  | zero => intro h; exact absurd h (by omega)
  | succ k ih =>
      intro _ s hinv hsum
      obtain ⟨h1, h2, h3, h4, h5⟩ := hinv
      by_cases hk : k = 0
      · subst hk
        have hsup : supervisor_node c.classify s = ("FINISH", s.turns + 1) :=
          supervisor_fresh_cap c.classify s h1 h2 h3 h4 (by omega)
        have hsupf : (supervisor_node c.classify s).1 = "FINISH" := by rw [hsup]
        have hsups : (supervisor_node c.classify s).2 = s.turns + 1 := by
          rw [hsup]
        have hstep : stepRun c (Node.supervisor, s) =
            (Node.endNode, { s with next := "FINISH", turns := s.turns + 1 }) := by
          show (routeNext (supervisor_node c.classify s).1,
            { s with next := (supervisor_node c.classify s).1,
                     turns := (supervisor_node c.classify s).2 }) = _
          rw [hsupf, hsups]
          rfl
        refine ⟨{ s with next := "FINISH", turns := s.turns + 1 }, ?_, ?_, h5⟩
        · have e1 : runFuel c (2 * 1) (Node.supervisor, s) =
              runFuel c 1 (stepRun c (Node.supervisor, s)) := rfl
          rw [e1, hstep]
          rfl
        · show s.turns + 1 = 5
          omega
      · have hk1 : 1 ≤ k := by omega
        obtain ⟨nd, s1, s2, hstep1, hnd1, hnd2, hstep2, hinv2, hturn2⟩ :
            ∃ nd s1 s2,
              stepRun c (Node.supervisor, s) = (nd, s1) ∧
              nd ≠ Node.endNode ∧ nd ≠ Node.keyError ∧
              stepRun c (nd, s1) = (Node.supervisor, s2) ∧
              EmptyDataInv s2 ∧ s2.turns = s.turns + 1 := by
          rcases hcl s.messages with hv | hv | hv
          · exact adversarial_case c s "risk_analyst" Node.risk_analyst
              c.risk_worker h1 h2 h3 h4 h5 (by omega) hv (by decide) rfl hrw
              rfl (by decide) (by decide)
          · exact adversarial_case c s "fraud_detector" Node.fraud_detector
              c.fraud_worker h1 h2 h3 h4 h5 (by omega) hv (by decide) rfl hfw
              rfl (by decide) (by decide)
          · exact adversarial_case c s "projection_specialist"
              Node.projection_specialist c.projection_worker
              h1 h2 h3 h4 h5 (by omega) hv (by decide) rfl hpw
              rfl (by decide) (by decide)
        obtain ⟨sf, hrun, hturns, hfin⟩ := ih hk1 s2 hinv2 (by omega)
        refine ⟨sf, ?_, hturns, hfin⟩
        have h2k : 2 * (k + 1) = (2 * k + 1) + 1 := by ring
        rw [h2k]
        have e1 : runFuel c ((2 * k + 1) + 1) (Node.supervisor, s) =
            runFuel c (2 * k + 1) (stepRun c (Node.supervisor, s)) := rfl
        rw [e1, hstep1]
        have e2 : runFuel c (2 * k + 1) (nd, s1) =
            runFuel c (2 * k) (stepRun c (nd, s1)) := by
          show (if (nd, s1).1 = Node.endNode ∨ (nd, s1).1 = Node.keyError
                then (nd, s1)
                else runFuel c (2 * k) (stepRun c (nd, s1))) = _
          exact if_neg (by simp [hnd1, hnd2])
        rw [e2, hstep2]
        exact hrun

/-- C1: the claim is false at a concrete adversarial run: with a
classifier that always answers `risk_analyst` and workers that return
plain strings, the run does terminate (the cap forces `FINISH` at
`turns = 5`), but the forced `FINISH` transitions straight to `END`
without any consolidation, so the terminated run's final result is
EMPTY — not the claimed non-empty best-effort summary. -/
theorem C1_counterexample :
    (runFuel advCollaborators 10 (Node.supervisor, initState "hello")).1 =
      Node.endNode ∧
    (runFuel advCollaborators 10 (Node.supervisor, initState "hello")).2.turns =
      5 ∧
    (runFuel advCollaborators 10
      (Node.supervisor, initState "hello")).2.final_response = Option.none :=
  ⟨rfl, rfl, rfl⟩

/-- C1 (amended): with a routing collaborator that always returns a
worker name and workers that produce no ledger entries, the orchestrator
terminates within 5 turns — the supervisor forces `FINISH` once the
counter reaches the hard cap of 5, regardless of the collaborator — but
the terminated run carries NO final result: the forced `FINISH` routes
directly to `END` and no summary is built from the ledger. -/
theorem C1_cap_terminates_without_final_result (c : Collaborators)
    (hcl : ∀ msgs, c.classify msgs = some "risk_analyst" ∨
        c.classify msgs = some "fraud_detector" ∨
        c.classify msgs = some "projection_specialist")
    (hrw : ∀ q, ∃ t, c.risk_worker q = WorkerResult.str t)
    (hfw : ∀ q, ∃ t, c.fraud_worker q = WorkerResult.str t)
    (hpw : ∀ q, ∃ t, c.projection_worker q = WorkerResult.str t)
    (query : String) :
    ∃ sf, runFuel c 10 (Node.supervisor, initState query) =
        (Node.endNode, sf) ∧
      sf.turns = 5 ∧ sf.final_response = Option.none :=
  adversarial_terminates c hcl hrw hfw hpw 5 (by omega) (initState query)
    ⟨rfl, rfl, rfl, rfl, rfl⟩ rfl

/-- Witness for C1 (amended) at the concrete adversarial collaborators. -/
theorem C1_witness :
    ∃ sf, runFuel advCollaborators 10 (Node.supervisor, initState "hi there") =
        (Node.endNode, sf) ∧
      sf.turns = 5 ∧ sf.final_response = Option.none :=
  C1_cap_terminates_without_final_result advCollaborators
    (fun _ => Or.inl rfl)
    (fun _ => ⟨"risk looks fine", rfl⟩)
    (fun _ => ⟨"no fraud found", rfl⟩)
    (fun _ => ⟨"projection done", rfl⟩)
    "hi there"

end PensionAI
